import Mathlib

/-!
Verification development for the schema introspection and table-recreation
engine of the ionic-orm IonicSQLite query runner
(src/driver/ionic-sqlite/IonicSQLiteQueryRunner.ts).

The TypeScript source is shallowly embedded: every statement-building and
catalog-reading function is translated into an executable Lean definition,
stateful behavior is explicit state passing, the asynchronous statement
execution primitive is an oracle `Engine : String -> Except String QueryOk`,
and JavaScript dynamic values are the `JsValue` type with strict equality.
-/

/-! ## JavaScript value model -/

/-- A JavaScript primitive value as it appears in reflected catalog rows.
Strict equality of two `JsValue`s holds only within the same variant, so a
number is never strictly equal to a string (this mirrors `===`).  `null`
stands for both JS `null` and an absent property. -/
inductive JsValue where
  | num (n : Int)
  | str (s : String)
  | null
deriving DecidableEq, Repr

/-- A returned data row: property names with their values, in the
enumeration order of the JS object keys. -/
abbrev Row := List (String × JsValue)

/-- Property access `row["k"]`; an absent property reads as `null`. -/
def Row.get (r : Row) (k : String) : JsValue :=
  match r.find? (fun p => p.1 == k) with
  | some p => p.2
  | none => .null

/-- Coerce a `JsValue` to the string the source expects at that position. -/
def JsValue.asString : JsValue → String
  | .str s => s
  | .num n => toString n
  | .null => ""

/-! ## JS string-search primitives (`indexOf`, `lastIndexOf`, `substr`)
modelled on `List Char`. -/

/-- First index at which `pat` occurs as a contiguous sublist (JS
`String.prototype.indexOf` with a pattern). -/
def firstOccurIdx (pat : List Char) : List Char → Option Nat
  | [] => if pat = [] then some 0 else none
  | c :: cs =>
    if pat.isPrefixOf (c :: cs) then some 0
    else (firstOccurIdx pat cs).map (· + 1)

/-- Last index of the character `c` (JS `lastIndexOf` for one character). -/
def lastCharIdx (c : Char) : List Char → Option Nat
  | [] => none
  | x :: xs =>
    match lastCharIdx c xs with
    | some i => some (i + 1)
    | none => if x = c then some 0 else none

/-- First index of the character `c` (JS `indexOf` for one character). -/
def firstCharIdx (c : Char) : List Char → Option Nat
  | [] => none
  | x :: xs => if x = c then some 0 else (firstCharIdx c xs).map (· + 1)

/-! ## Descriptor model

The schema classes (`TableSchema`, `ColumnSchema`, `IndexSchema`,
`ForeignKeySchema`, `PrimaryKeySchema`) live in `schema-builder/schema/`,
outside the provided source file; their fields are modelled from the spec
data model (section 3) and from how the runner reads and writes them. -/

/-- Modelled from the spec: ColumnDescriptor — name, declared type string,
nullability, optional default, primary-key membership, uniqueness and
generated flags.  A fresh `ColumnSchema` has `isUnique` unset, which strict
equality treats as false. -/
structure ColumnSchema where
  name : String
  type : String
  default : Option JsValue := none
  isNullable : Bool := false
  isPrimary : Bool := false
  isUnique : Bool := false
  isGenerated : Bool := false
  comment : String := ""
deriving DecidableEq, Repr

/-- Modelled from the spec: PrimaryKeyDescriptor — owning index name and
column name. -/
structure PrimaryKeySchema where
  name : String
  columnName : String
deriving DecidableEq, Repr

/-- Modelled from the spec: ForeignKeyDescriptor — synthesized name, local
and referenced column lists, referenced table, on-delete action. -/
structure ForeignKeySchema where
  name : String
  columnNames : List String
  referencedColumnNames : List String
  referencedTableName : String
  onDelete : String := ""
deriving DecidableEq, Repr

/-- Modelled from the spec: IndexDescriptor — table name, index name,
ordered column names, uniqueness flag. -/
structure IndexSchema where
  tableName : String
  name : String
  columnNames : List String
  isUnique : Bool
deriving DecidableEq, Repr

/-- Modelled from the spec: TableDescriptor — table name with the ordered
column list and the primary-key, foreign-key and index lists. -/
structure TableSchema where
  name : String
  columns : List ColumnSchema := []
  primaryKeys : List PrimaryKeySchema := []
  foreignKeys : List ForeignKeySchema := []
  indices : List IndexSchema := []
deriving DecidableEq, Repr

/-- Modelled from the spec: `TableSchema.clone` — descriptors are value
objects; cloning yields an independent deep copy, which in a value model is
the value itself. -/
def TableSchema.clone (t : TableSchema) : TableSchema := t

/-- Modelled from the spec: `TableSchema.removeColumns` — remove the named
columns from the column list. -/
def TableSchema.removeColumns (t : TableSchema) (cols : List ColumnSchema) : TableSchema :=
  { t with columns := t.columns.filter (fun c => cols.all (fun rc => rc.name ≠ c.name)) }

/-- Modelled from the spec: `TableSchema.addForeignKeys` — append the given
foreign keys to the foreign-key list. -/
def TableSchema.addForeignKeys (t : TableSchema) (fks : List ForeignKeySchema) : TableSchema :=
  { t with foreignKeys := t.foreignKeys ++ fks }

/-- Modelled from the spec: `TableSchema.removeForeignKeys` — remove the
named foreign keys from the foreign-key list. -/
def TableSchema.removeForeignKeys (t : TableSchema) (fks : List ForeignKeySchema) : TableSchema :=
  { t with foreignKeys := t.foreignKeys.filter (fun fk => fks.all (fun r => r.name ≠ fk.name)) }

/-! ## Autoincrement heuristic (loadSchemaTables, lines 273-290)

The source scans the creation text for the literal `AUTOINCREMENT`, takes
the prefix before it, walks back to the last comma (or, when no comma
exists, the last opening parenthesis), and then keeps what stands strictly
between the first and the last double quote of that span.  The `substr`
chains are reproduced on `List Char`, including the JS behavior of
`substr(0, -1) = ""` and `substr(-1 + 1) = substr(0)` when a quote is
missing. -/

/-- The keyword scanned for, as a character list. -/
def autoincKeyword : List Char := "AUTOINCREMENT".toList

/-- The quote-pair extraction applied to the span that starts at the chosen
boundary: `s.substr(0, s.lastIndexOf(q))` followed by
`s.substr(s.indexOf(q) + 1)`. -/
def extractQuotedName (u : List Char) : List Char :=
  match lastCharIdx '"' u with
  | none => []
  | some lq =>
    let u1 := u.take lq
    match firstCharIdx '"' u1 with
    | none => u1
    | some fq => u1.drop (fq + 1)

/-- Lines 276-290: the autoincrement column-name heuristic on the creation
text, `none` when the keyword is absent. -/
def autoIncNameL (tableSql : List Char) : Option (List Char) :=
  match firstOccurIdx autoincKeyword tableSql with
  | none => none
  | some i =>
    let s := tableSql.take i
    match lastCharIdx ',' s with
    | some comma => some (extractQuotedName (s.drop comma))
    | none =>
      match lastCharIdx '(' s with
      | some bracket => some (extractQuotedName (s.drop bracket))
      | none => some s

/-- String wrapper for the heuristic. -/
def autoIncrementColumnName (tableSql : String) : Option String :=
  (autoIncNameL tableSql.toList).map (fun l => ⟨l⟩)

/-! ## DDL statement builder -/

/-- `Array.prototype.join(", ")`. -/
def joinComma (l : List String) : String := String.intercalate ", " l

/-- Double-quote an identifier. -/
def quoteId (s : String) : String := "\"" ++ s ++ "\""

/-- Lines 543-558, `buildCreateColumnSql`: render one column definition.
The columns handed to it by `createTable` and `recreateTable` are plain
`ColumnSchema` values, so the `instanceof ColumnMetadata` test is false and
the raw declared type string is used verbatim. -/
def buildCreateColumnSql (column : ColumnSchema) : String :=
  let c := "\"" ++ column.name ++ "\""
  let c := c ++ " " ++ column.type
  let c := if column.isNullable ≠ true then c ++ " NOT NULL" else c
  let c := if column.isUnique = true then c ++ " UNIQUE" else c
  let c := if column.isGenerated = true then c ++ " PRIMARY KEY AUTOINCREMENT" else c
  c

/-- Lines 365-377, `createTable`: the `CREATE TABLE IF NOT EXISTS`
statement, with the trailing unquoted composite primary-key clause added
when some column is primary and not generated. -/
def createTableSql (table : TableSchema) : String :=
  let columnDefinitions := joinComma (table.columns.map buildCreateColumnSql)
  let sql := "CREATE TABLE IF NOT EXISTS \"" ++ table.name ++ "\" (" ++ columnDefinitions
  let primaryKeyColumns := table.columns.filter (fun c => c.isPrimary && !c.isGenerated)
  let sql := if primaryKeyColumns.length > 0 then
      sql ++ ", PRIMARY KEY(" ++ joinComma (primaryKeyColumns.map (fun c => c.name)) ++ ")"
    else sql
  sql ++ ")"

/-- Lines 568-572: one `FOREIGN KEY(...) REFERENCES ...` clause of the
recreation staging statement. -/
def foreignKeyClause (fk : ForeignKeySchema) : String :=
  ", FOREIGN KEY(" ++ joinComma (fk.columnNames.map quoteId) ++ ") REFERENCES \""
    ++ fk.referencedTableName ++ "\"(" ++ joinComma (fk.referencedColumnNames.map quoteId) ++ ")"

/-- Lines 563-578, `recreateTable` staging step: the
`CREATE TABLE "temporary_<name>"` statement with foreign-key clauses and
the trailing composite primary-key clause. -/
def recreateCreateSql (tableSchema : TableSchema) : String :=
  let columnDefinitions := joinComma (tableSchema.columns.map buildCreateColumnSql)
  let sql1 := "CREATE TABLE \"temporary_" ++ tableSchema.name ++ "\" (" ++ columnDefinitions
  let sql1 := tableSchema.foreignKeys.foldl (fun acc fk => acc ++ foreignKeyClause fk) sql1
  let primaryKeyColumns := tableSchema.columns.filter (fun c => c.isPrimary && !c.isGenerated)
  let sql1 := if primaryKeyColumns.length > 0 then
      sql1 ++ ", PRIMARY KEY(" ++ joinComma (primaryKeyColumns.map (fun c => c.name)) ++ ")"
    else sql1
  sql1 ++ ")"

/-- Line 585: the recreation data probe. -/
def selectAllSql (tableSchema : TableSchema) : String :=
  "SELECT * FROM \"" ++ tableSchema.name ++ "\""

/-- Lines 588-595: the data-copy statement built from the first returned
row: old column names are the property names of that row, intersected by
name with the target column names, keeping the old-row order; the
insert-column side is unquoted, the select side quoted. -/
def dataCopySql (tableSchema : TableSchema) (firstRow : Row) : String :=
  let oldColumnNamesArr := firstRow.map (fun p => p.1)
  let newColumnNamesArr := tableSchema.columns.map (fun c => c.name)
  let colInTwiceArr := oldColumnNamesArr.filter (fun x => newColumnNamesArr.contains x)
  let colInTwice := joinComma (colInTwiceArr.map quoteId)
  let colInTwiceWithout := joinComma colInTwiceArr
  "INSERT INTO \"temporary_" ++ tableSchema.name ++ "\" (" ++ colInTwiceWithout
    ++ ") SELECT " ++ colInTwice ++ " FROM \"" ++ tableSchema.name ++ "\""

/-- Line 600: drop the original table. -/
def dropTableSql (tableSchema : TableSchema) : String :=
  "DROP TABLE \"" ++ tableSchema.name ++ "\""

/-- Line 604: rename the temporary table to the original name. -/
def renameTempSql (tableSchema : TableSchema) : String :=
  "ALTER TABLE \"temporary_" ++ tableSchema.name ++ "\" RENAME TO \"" ++ tableSchema.name ++ "\""

/-- Lines 453-454, `createIndex`: the `CREATE [UNIQUE] INDEX` statement
(the index column list is joined with a bare comma in the source). -/
def createIndexSql (index : IndexSchema) : String :=
  let columnNames := String.intercalate "," (index.columnNames.map quoteId)
  "CREATE " ++ (if index.isUnique then "UNIQUE " else "") ++ "INDEX \"" ++ index.name
    ++ "\" ON \"" ++ index.tableName ++ "\"(" ++ columnNames ++ ")"

/-- Line 465, `dropIndex`: the `DROP INDEX` statement. -/
def dropIndexSql (indexName : String) : String :=
  "DROP INDEX \"" ++ indexName ++ "\""

/-! ## Engine oracle and the statement-execution primitive -/

/-- A successful engine result: the returned row set (empty for non-row
results). -/
structure QueryOk where
  rows : List Row
deriving DecidableEq, Repr

/-- The storage-engine statement-execution oracle: a statement either
returns a row set or fails with the native engine error, deterministically
per statement text. -/
abbrev Engine := String → Except String QueryOk

/-- Events sent to the logging sink by `query` (lines 129, 150, 151). -/
inductive LogEvent where
  | loggedQuery (stmt : String) (params : List JsValue)
  | failedQuery (stmt : String) (params : List JsValue)
  | queryError (e : String)
deriving DecidableEq, Repr

/-- Runner error kinds (section 7 of the spec): the fatal already-released
error, the two transaction-state errors, and an engine execution failure
carrying the native error unmodified. -/
inductive RunnerError where
  | alreadyReleased
  | transactionAlreadyStarted
  | transactionNotStarted
  | engine (e : String)
deriving DecidableEq, Repr

/-- Map the engine side of a result into the runner error type, leaving the
native error payload unmodified. -/
def wrapEngine {α : Type} : Except String α × List String → Except RunnerError α × List String
  | (.ok a, issued) => (.ok a, issued)
  | (.error e, issued) => (.error (.engine e), issued)

/-! ## Table recreation engine (recreateTable, lines 560-611)

`recreateRun` replays the statement sequence against the engine oracle and
returns the outcome together with the list of statements issued, in order.
Each `await this.query(...)` of the source is one oracle call; a rejection
stops the sequence (the async function rethrows).  The final index-rebuild
step starts every `createIndex` before awaiting `Promise.all`, so all index
statements are issued and the first rejection (in list order, in this
deterministic model) becomes the result. -/

/-- First engine error over a statement list (the rejection `Promise.all`
reports for the index-rebuild step). -/
def firstEngineError (engine : Engine) : List String → Option String
  | [] => none
  | s :: ss =>
    match engine s with
    | .error e => some e
    | .ok _ => firstEngineError engine ss

/-- Lines 607-610: the index-rebuild step; every index statement is issued. -/
def recreateIndexStage (engine : Engine) (tableSchema : TableSchema) :
    Except String Unit × List String :=
  let stmts := tableSchema.indices.map createIndexSql
  (match firstEngineError engine stmts with
   | some e => .error e
   | none => .ok (), stmts)

/-- Lines 560-611, `recreateTable`: stage, probe, conditional data copy,
drop, rename, index rebuild. -/
def recreateRun (engine : Engine) (tableSchema : TableSchema) :
    Except String Unit × List String :=
  let sql1 := recreateCreateSql tableSchema
  match engine sql1 with
  | .error e => (.error e, [sql1])
  | .ok _ =>
    let sel := selectAllSql tableSchema
    match engine sel with
    | .error e => (.error e, [sql1, sel])
    | .ok firstDatas =>
      -- lines 586-597: the data copy runs whenever the probe returned rows
      let copyStep : Except String Unit × List String :=
        match firstDatas.rows with
        | [] => (.ok (), [])
        | firstRow :: _ =>
          let sql2 := dataCopySql tableSchema firstRow
          match engine sql2 with
          | .error e => (.error e, [sql2])
          | .ok _ => (.ok (), [sql2])
      match copyStep with
      | (.error e, copyIssued) => (.error e, [sql1, sel] ++ copyIssued)
      | (.ok _, copyIssued) =>
        let sql3 := dropTableSql tableSchema
        match engine sql3 with
        | .error e => (.error e, [sql1, sel] ++ copyIssued ++ [sql3])
        | .ok _ =>
          let sql4 := renameTempSql tableSchema
          match engine sql4 with
          | .error e => (.error e, [sql1, sel] ++ copyIssued ++ [sql3, sql4])
          | .ok _ =>
            let (r, idxIssued) := recreateIndexStage engine tableSchema
            (r, [sql1, sel] ++ copyIssued ++ [sql3, sql4] ++ idxIssued)

/-! ## Catalog reader (loadSchemaTables, lines 247-360)

The naming strategy collaborator is abstracted as a function synthesizing a
foreign-key name from table, local columns, referenced table and referenced
columns (the spec says it is used only for that).  Every reflection query
is one oracle call; the `Promise.all` groups are sequentialized in list
order, with the first rejection propagating. -/

/-- The naming-strategy capability: `foreignKeyName(table, cols, refTable, refCols)`. -/
abbrev NamingStrategy := String → List String → String → List String → String

/-- Line 256: the catalog listing restricted to user tables. -/
def masterSql : String :=
  "SELECT * FROM sqlite_master WHERE type = 'table' AND name != 'sqlite_sequence'"

/-- Line 268. -/
def tableInfoSql (name : String) : String := "PRAGMA table_info(\"" ++ name ++ "\")"

/-- Line 269. -/
def indexListSql (name : String) : String := "PRAGMA index_list(\"" ++ name ++ "\")"

/-- Line 270. -/
def foreignKeyListSql (name : String) : String := "PRAGMA foreign_key_list(\"" ++ name ++ "\")"

/-- Lines 316 and 334. -/
def indexInfoSql (name : String) : String := "PRAGMA index_info(\"" ++ name ++ "\")"

/-- One character of `String.prototype.toLowerCase`, restricted to the
ASCII letters that occur in declared type names (the engine stores type
names in ASCII). -/
def lowerChar (c : Char) : Char :=
  if 'A' ≤ c ∧ c ≤ 'Z' then Char.ofNat (c.toNat + 32) else c

/-- `String.prototype.toLowerCase` over the characters. -/
def jsToLower (s : String) : String := ⟨s.toList.map lowerChar⟩

/-- Lines 293-309: build one `ColumnSchema` from a `table_info` row; type
lowercased, nullability the negation of `notnull === 0`... precisely,
`isNullable` is `notnull === 0`, `isPrimary` is `pk === 1`, and the
generated flag compares the detected autoincrement name with this column
name. -/
def mkColumnSchema (autoIncrementName : Option String) (dbColumn : Row) : ColumnSchema :=
  { name := (dbColumn.get "name").asString
    type := jsToLower (dbColumn.get "type").asString
    default := match dbColumn.get "dflt_value" with
      | .null => none
      | v => some v
    isNullable := dbColumn.get "notnull" == .num 0
    isPrimary := dbColumn.get "pk" == .num 1
    comment := ""
    isGenerated := autoIncrementName == some (dbColumn.get "name").asString
    isUnique := false }

/-- Lines 302-307: the foreign keys attached while mapping one column — the
reflected rows whose `from` strictly equals this column name, turned into
`ForeignKeySchema` values via the naming strategy. -/
def mkColumnForeignKeys (ns : NamingStrategy) (tableName : String) (columnName : JsValue)
    (dbForeignKeys : List Row) : List ForeignKeySchema :=
  (dbForeignKeys.filter (fun fk => fk.get "from" == columnName)).map (fun fk =>
    let fkFrom := (fk.get "from").asString
    let fkTo := (fk.get "to").asString
    let fkTable := (fk.get "table").asString
    { name := ns tableName [fkFrom] fkTable [fkTo]
      columnNames := [fkFrom]
      referencedColumnNames := [fkTo]
      referencedTableName := fkTable
      onDelete := (fk.get "on_delete").asString })

/-- Lines 313-321: for each index of origin `pk`, query its column list and
push one `PrimaryKeySchema` per column. -/
def pkStage (engine : Engine) : List Row → Except String (List PrimaryKeySchema) × List String
  | [] => (.ok [], [])
  | idx :: rest =>
    let stmt := indexInfoSql (idx.get "name").asString
    match engine stmt with
    | .error e => (.error e, [stmt])
    | .ok info =>
      let cols := info.rows.map (fun r =>
        PrimaryKeySchema.mk (idx.get "name").asString (r.get "name").asString)
      match pkStage engine rest with
      | (.error e, iss) => (.error e, stmt :: iss)
      | (.ok more, iss) => (.ok (cols ++ more), stmt :: iss)

/-- Line 331: `filter((value, index, self) => self.indexOf(value) === index)`
keeps the first occurrence of each name. -/
def dedupeFirst (seen : List String) : List String → List String
  | [] => []
  | x :: xs => if seen.contains x then dedupeFirst seen xs else x :: dedupeFirst (x :: seen) xs

/-- Lines 341-345: set `isUnique` on the first column bearing the given
name (`Array.prototype.find` then mutate). -/
def setUniqueOnFirst (cols : List ColumnSchema) (n : String) : List ColumnSchema :=
  match cols with
  | [] => []
  | c :: cs => if c.name = n then { c with isUnique := true } :: cs else c :: setUniqueOnFirst cs n

/-- Lines 332-353: classify the surviving index names one by one.  A
`sqlite_autoindex` name with `unique === 1` (number) marks the indexed
columns unique and produces no descriptor; any other name becomes an
`IndexSchema` whose uniqueness flag is `unique === "1"` — the string
comparison exactly as written at line 351. -/
def classifyStage (engine : Engine) (tableName : String) (dbIndices : List Row)
    (cols : List ColumnSchema) :
    List String → Except String (List ColumnSchema × List IndexSchema) × List String
  | [] => (.ok (cols, []), [])
  | n :: rest =>
    match dbIndices.find? (fun i => i.get "name" == .str n) with
    | none =>
      -- unreachable: the names are drawn from dbIndices (the source uses
      -- a non-null assertion here)
      classifyStage engine tableName dbIndices cols rest
    | some dbIndex =>
      let stmt := indexInfoSql n
      match engine stmt with
      | .error e => (.error e, [stmt])
      | .ok info =>
        let indexColumns := info.rows.map (fun r => (r.get "name").asString)
        if n.toList.take ("sqlite_autoindex".toList.length) = "sqlite_autoindex".toList then
          let cols2 := if dbIndex.get "unique" == .num 1 then
              indexColumns.foldl setUniqueOnFirst cols
            else cols
          match classifyStage engine tableName dbIndices cols2 rest with
          | (.error e, iss) => (.error e, stmt :: iss)
          | (.ok r, iss) => (.ok r, stmt :: iss)
        else
          let ix : IndexSchema :=
            { tableName := tableName, name := n, columnNames := indexColumns
              isUnique := dbIndex.get "unique" == .str "1" }
          match classifyStage engine tableName dbIndices cols rest with
          | (.error e, iss) => (.error e, stmt :: iss)
          | (.ok (cols3, ixs), iss) => (.ok (cols3, ix :: ixs), stmt :: iss)

/-- Lines 263-359: build the `TableSchema` for one catalog row. -/
def buildTableSchema (ns : NamingStrategy) (engine : Engine) (dbTable : Row) :
    Except String TableSchema × List String :=
  let tname := (dbTable.get "name").asString
  let stmts := [tableInfoSql tname, indexListSql tname, foreignKeyListSql tname]
  -- lines 267-271: the three reflection queries are all issued together
  match engine (tableInfoSql tname), engine (indexListSql tname), engine (foreignKeyListSql tname) with
  | .error e, _, _ => (.error e, stmts)
  | _, .error e, _ => (.error e, stmts)
  | _, _, .error e => (.error e, stmts)
  | .ok dbColumns, .ok dbIndices, .ok dbForeignKeys =>
    let autoInc := autoIncrementColumnName (dbTable.get "sql").asString
    let columns := dbColumns.rows.map (mkColumnSchema autoInc)
    let foreignKeys :=
      (dbColumns.rows.map (fun dbColumn =>
        mkColumnForeignKeys ns tname (dbColumn.get "name") dbForeignKeys.rows)).flatten
    let pkIndices := dbIndices.rows.filter (fun i => i.get "origin" == .str "pk")
    match pkStage engine pkIndices with
    | (.error e, iss1) => (.error e, stmts ++ iss1)
    | (.ok primaryKeys, iss1) =>
      -- lines 324-331: surviving indices, deduplicated by name
      let survivors := dbIndices.rows.filter (fun i =>
        !(i.get "origin" == .str "pk")
        && foreignKeys.all (fun fk => !(i.get "name" == .str fk.name))
        && primaryKeys.all (fun pk => !(i.get "name" == .str pk.name)))
      let names := dedupeFirst [] (survivors.map (fun i => (i.get "name").asString))
      match classifyStage engine tname dbIndices.rows columns names with
      | (.error e, iss2) => (.error e, stmts ++ iss1 ++ iss2)
      | (.ok (columns2, indices), iss2) =>
        (.ok { name := tname, columns := columns2, primaryKeys := primaryKeys,
               foreignKeys := foreignKeys, indices := indices }, stmts ++ iss1 ++ iss2)

/-- Sequential fold of `buildTableSchema` over the catalog rows (the source
maps all rows inside one `Promise.all`). -/
def buildTables (ns : NamingStrategy) (engine : Engine) :
    List Row → Except String (List TableSchema) × List String
  | [] => (.ok [], [])
  | dbTable :: rest =>
    match buildTableSchema ns engine dbTable with
    | (.error e, iss) => (.error e, iss)
    | (.ok ts, iss) =>
      match buildTables ns engine rest with
      | (.error e, iss2) => (.error e, iss ++ iss2)
      | (.ok more, iss2) => (.ok (ts :: more), iss ++ iss2)

/-- Lines 247-360, `loadSchemaTables` (without the release guard, which the
operation wrapper below adds): an empty or missing name list returns empty
with no catalog query; otherwise every catalog row becomes a schema. -/
def loadSchemaTablesRun (ns : NamingStrategy) (engine : Engine) (tableNames : List String) :
    Except String (List TableSchema) × List String :=
  if tableNames.isEmpty then (.ok [], [])
  else
    match engine masterSql with
    | .error e => (.error e, [masterSql])
    | .ok dbTables =>
      if dbTables.rows.isEmpty then (.ok [], [masterSql])
      else
        match buildTables ns engine dbTables.rows with
        | (r, iss) => (r, masterSql :: iss)

/-! ## Runner lifecycle and public operations

The runner instance state: the `isReleased` guard flag, the transaction
flag living on the database connection, and whether the connection carries
a release callback.  Each public method is a function from this state (plus
the engine oracle and its arguments) to a result together with the list of
statements it issued; methods that change the state also return it. -/

structure RunnerState where
  isReleased : Bool
  isTransactionActive : Bool
  hasReleaseCallback : Bool
deriving DecidableEq, Repr

/-- Lines 54-61, `release`: when the connection has a release callback the
flag is set and the callback awaited; otherwise the method resolves without
touching the flag. -/
def releaseRun (st : RunnerState) : RunnerState :=
  if st.hasReleaseCallback then { st with isReleased := true } else st

/-- Lines 124-156, `query`: the released guard, the success log entry, and on
engine failure the failed-query and error log entries with the native error
rejected unmodified.  The statement is handed to the engine exactly once. -/
def queryOp (engine : Engine) (st : RunnerState) (stmt : String) (params : List JsValue) :
    Except RunnerError (List Row) × List String × List LogEvent :=
  if st.isReleased then (.error .alreadyReleased, [], [])
  else
    match engine stmt with
    | .ok res => (.ok res.rows, [stmt], [.loggedQuery stmt params])
    | .error e => (.error (.engine e), [stmt],
        [.loggedQuery stmt params, .failedQuery stmt params, .queryError e])

/-- Modelled from the spec: the driver identifier-escaping functions
(`escapeColumnName` and `escapeTableName` in IonicSQLiteDriver, outside the
provided file) double-quote the identifier. -/
def escapeName (s : String) : String := "\"" ++ s ++ "\""

/-- Lines 161-191, `insert`. -/
def insertOp (engine : Engine) (st : RunnerState) (tableName : String)
    (keyValues : List (String × JsValue)) : Except RunnerError Unit × List String :=
  if st.isReleased then (.error .alreadyReleased, [])
  else
    let keys := keyValues.map (fun p => p.1)
    let columns := joinComma (keys.map escapeName)
    let values := String.intercalate "," ((List.range keys.length).map (fun i => "$" ++ toString (i + 1)))
    let sql := "INSERT INTO " ++ escapeName tableName ++ "(" ++ columns ++ ") VALUES (" ++ values ++ ")"
    match engine sql with
    | .ok _ => (.ok (), [sql])
    | .error e => (.error (.engine e), [sql])

/-- Lines 536-538, `parametrize`. -/
def parametrize (objectLiteral : List (String × JsValue)) (startIndex : Nat := 0) : List String :=
  (objectLiteral.map (fun p => p.1)).enum.map
    (fun p => escapeName p.2 ++ "=$" ++ toString (startIndex + p.1 + 1))

/-- Lines 196-207, `update`. -/
def updateOp (engine : Engine) (st : RunnerState) (tableName : String)
    (valuesMap conditions : List (String × JsValue)) : Except RunnerError Unit × List String :=
  if st.isReleased then (.error .alreadyReleased, [])
  else
    let updateValues := joinComma (parametrize valuesMap)
    let conditionString := String.intercalate " AND " (parametrize conditions valuesMap.length)
    let sql := "UPDATE " ++ escapeName tableName ++ " SET " ++ updateValues
      ++ (if conditionString ≠ "" then " WHERE " ++ conditionString else "")
    match engine sql with
    | .ok _ => (.ok (), [sql])
    | .error e => (.error (.engine e), [sql])

/-- Lines 212-220, `delete`. -/
def deleteOp (engine : Engine) (st : RunnerState) (tableName : String)
    (conditions : List (String × JsValue)) : Except RunnerError Unit × List String :=
  if st.isReleased then (.error .alreadyReleased, [])
  else
    let conditionString := String.intercalate " AND " (parametrize conditions)
    let sql := "DELETE FROM \"" ++ tableName ++ "\" WHERE " ++ conditionString
    match engine sql with
    | .ok _ => (.ok (), [sql])
    | .error e => (.error (.engine e), [sql])

/-- Lines 66-73, `clearDatabase`: select the drop statements, then issue
them all (`Promise.all`); in this deterministic model the first failing
drop in list order is the rejection. -/
def clearDatabaseOp (engine : Engine) (st : RunnerState) :
    Except RunnerError Unit × List String :=
  if st.isReleased then (.error .alreadyReleased, [])
  else
    let selectDropsSql := "select 'drop table ' || name || ';' as query from sqlite_master where type = 'table' and name != 'sqlite_sequence'"
    match engine selectDropsSql with
    | .error e => (.error (.engine e), [selectDropsSql])
    | .ok res =>
      let drops := res.rows.map (fun r => (r.get "query").asString)
      match firstEngineError engine drops with
      | some e => (.error (.engine e), selectDropsSql :: drops)
      | none => (.ok (), selectDropsSql :: drops)

/-- Lines 78-86, `beginTransaction`: guard, transaction-state check, flag
set before the statement runs. -/
def beginTransactionOp (engine : Engine) (st : RunnerState) :
    Except RunnerError Unit × List String × RunnerState :=
  if st.isReleased then (.error .alreadyReleased, [], st)
  else if st.isTransactionActive then (.error .transactionAlreadyStarted, [], st)
  else
    let st2 := { st with isTransactionActive := true }
    match engine "BEGIN TRANSACTION" with
    | .ok _ => (.ok (), ["BEGIN TRANSACTION"], st2)
    | .error e => (.error (.engine e), ["BEGIN TRANSACTION"], st2)

/-- Lines 91-99, `commitTransaction`: the flag is cleared only after the
statement succeeds. -/
def commitTransactionOp (engine : Engine) (st : RunnerState) :
    Except RunnerError Unit × List String × RunnerState :=
  if st.isReleased then (.error .alreadyReleased, [], st)
  else if !st.isTransactionActive then (.error .transactionNotStarted, [], st)
  else
    match engine "COMMIT" with
    | .ok _ => (.ok (), ["COMMIT"], { st with isTransactionActive := false })
    | .error e => (.error (.engine e), ["COMMIT"], st)

/-- Lines 104-112, `rollbackTransaction`. -/
def rollbackTransactionOp (engine : Engine) (st : RunnerState) :
    Except RunnerError Unit × List String × RunnerState :=
  if st.isReleased then (.error .alreadyReleased, [], st)
  else if !st.isTransactionActive then (.error .transactionNotStarted, [], st)
  else
    match engine "ROLLBACK" with
    | .ok _ => (.ok (), ["ROLLBACK"], { st with isTransactionActive := false })
    | .error e => (.error (.engine e), ["ROLLBACK"], st)

/-- Lines 117-119, `isTransactionActive`: returns the connection flag; the
source has no released guard here. -/
def isTransactionActiveOp (st : RunnerState) : Except RunnerError Bool :=
  .ok st.isTransactionActive

/-- Lines 247-249 + 252-360, `loadSchemaTables` with its released guard. -/
def loadSchemaTablesOp (ns : NamingStrategy) (engine : Engine) (st : RunnerState)
    (tableNames : List String) : Except RunnerError (List TableSchema) × List String :=
  if st.isReleased then (.error .alreadyReleased, [])
  else wrapEngine (loadSchemaTablesRun ns engine tableNames)

/-- Lines 365-377, `createTable` with its released guard. -/
def createTableOp (engine : Engine) (st : RunnerState) (table : TableSchema) :
    Except RunnerError Unit × List String :=
  if st.isReleased then (.error .alreadyReleased, [])
  else
    let sql := createTableSql table
    match engine sql with
    | .ok _ => (.ok (), [sql])
    | .error e => (.error (.engine e), [sql])

/-- Lines 382-387, `createColumns`: the columns argument is never read; the
table schema is recreated exactly as passed. -/
def createColumnsOp (engine : Engine) (st : RunnerState) (tableSchema : TableSchema)
    (columns : List ColumnSchema) : Except RunnerError Unit × List String :=
  if st.isReleased then (.error .alreadyReleased, [])
  else wrapEngine (recreateRun engine tableSchema)

/-- Lines 393-398, `changeColumns`: the changed-column pairs are never
read; the table schema is recreated exactly as passed. -/
def changeColumnsOp (engine : Engine) (st : RunnerState) (tableSchema : TableSchema)
    (changedColumns : List (ColumnSchema × ColumnSchema)) :
    Except RunnerError Unit × List String :=
  if st.isReleased then (.error .alreadyReleased, [])
  else wrapEngine (recreateRun engine tableSchema)

/-- Lines 403-410, `dropColumns`: clone, remove the columns from the clone,
recreate the clone.  The last component is the caller-held schema after the
call (explicit state passing for the mutable argument). -/
def dropColumnsOp (engine : Engine) (st : RunnerState) (tableSchema : TableSchema)
    (columns : List ColumnSchema) :
    (Except RunnerError Unit × List String) × TableSchema :=
  if st.isReleased then ((.error .alreadyReleased, []), tableSchema)
  else
    let newTable := (TableSchema.clone tableSchema).removeColumns columns
    (wrapEngine (recreateRun engine newTable), tableSchema)

/-- Lines 415-420, `updatePrimaryKeys`. -/
def updatePrimaryKeysOp (engine : Engine) (st : RunnerState) (dbTable : TableSchema) :
    Except RunnerError Unit × List String :=
  if st.isReleased then (.error .alreadyReleased, [])
  else wrapEngine (recreateRun engine dbTable)

/-- Lines 425-432, `createForeignKeys`: clone, add the foreign keys to the
clone, recreate the clone. -/
def createForeignKeysOp (engine : Engine) (st : RunnerState) (tableSchema : TableSchema)
    (foreignKeys : List ForeignKeySchema) :
    (Except RunnerError Unit × List String) × TableSchema :=
  if st.isReleased then ((.error .alreadyReleased, []), tableSchema)
  else
    let newTable := (TableSchema.clone tableSchema).addForeignKeys foreignKeys
    (wrapEngine (recreateRun engine newTable), tableSchema)

/-- Lines 437-444, `dropForeignKeys`: clone, remove the foreign keys from
the clone, recreate the clone. -/
def dropForeignKeysOp (engine : Engine) (st : RunnerState) (tableSchema : TableSchema)
    (foreignKeys : List ForeignKeySchema) :
    (Except RunnerError Unit × List String) × TableSchema :=
  if st.isReleased then ((.error .alreadyReleased, []), tableSchema)
  else
    let newTable := (TableSchema.clone tableSchema).removeForeignKeys foreignKeys
    (wrapEngine (recreateRun engine newTable), tableSchema)

/-- Lines 449-456, `createIndex` with its released guard. -/
def createIndexOp (engine : Engine) (st : RunnerState) (index : IndexSchema) :
    Except RunnerError Unit × List String :=
  if st.isReleased then (.error .alreadyReleased, [])
  else
    let sql := createIndexSql index
    match engine sql with
    | .ok _ => (.ok (), [sql])
    | .error e => (.error (.engine e), [sql])

/-- Lines 461-467, `dropIndex` with its released guard. -/
def dropIndexOp (engine : Engine) (st : RunnerState) (tableName indexName : String) :
    Except RunnerError Unit × List String :=
  if st.isReleased then (.error .alreadyReleased, [])
  else
    let sql := dropIndexSql indexName
    match engine sql with
    | .ok _ => (.ok (), [sql])
    | .error e => (.error (.engine e), [sql])

/-! ## Spec-shaped forms and concrete fixtures used by the theorems -/

/-- One foreign-key clause per descriptor, concatenated in list order (the
shape the spec describes for the staging statement). -/
def concatForeignKeyClauses : List ForeignKeySchema → String
  | [] => ""
  | fk :: rest => foreignKeyClause fk ++ concatForeignKeyClauses rest

/-- The trailing composite primary-key clause of a rendered `CREATE TABLE`
statement: present exactly when some column is primary and not generated,
listing those columns unquoted in declared order. -/
def primaryKeyClause (t : TableSchema) : String :=
  let pkCols := t.columns.filter (fun c => c.isPrimary && !c.isGenerated)
  if pkCols.length > 0 then ", PRIMARY KEY(" ++ joinComma (pkCols.map (fun c => c.name)) ++ ")"
  else ""

/-- The autoincrement detection rule exactly as the claim states it: walk
back from the keyword to the nearest preceding comma or opening parenthesis
— whichever of the two is closer to the keyword — and take the identifier
delimited by the nearest quote pair (the last two quotes) inside that span.
This definition follows the words of the claim, for comparison with the
source translation `autoIncNameL`. -/
def claimedNearestRule (tableSql : List Char) : Option (List Char) :=
  match firstOccurIdx autoincKeyword tableSql with
  | none => none
  | some i =>
    let s := tableSql.take i
    let boundary : Option Nat :=
      match lastCharIdx ',' s, lastCharIdx '(' s with
      | some a, some b => some (max a b)
      | some a, none => some a
      | none, some b => some b
      | none, none => none
    match boundary with
    | none => none
    | some bd =>
      let span := s.drop bd
      match lastCharIdx '"' span with
      | none => none
      | some q2 =>
        match lastCharIdx '"' (span.take q2) with
        | none => none
        | some q1 => some ((span.take q2).drop (q1 + 1))

/-- First character of a string, used to tell the statement kinds apart. -/
def headChar (s : String) : Option Char := s.data.head?

/-- A naming strategy fixture. -/
def ns0 : NamingStrategy := fun _ _ _ _ => "fk"

/-- An engine in which every statement succeeds with no rows. -/
def okEngine : Engine := fun _ => .ok ⟨[]⟩

/-- A live runner state on a connection with a release callback. -/
def st0 : RunnerState := { isReleased := false, isTransactionActive := false, hasReleaseCallback := true }

/-- Fixture for the data-copy claim: the target schema declares only the
column `a`. -/
def c1table : TableSchema := { name := "t", columns := [{ name := "a", type := "text" }] }

/-- Fixture engine for the data-copy claim: the probe `SELECT` finds one
existing row whose only property is `z`, disjoint from the target columns;
every other statement succeeds. -/
def c1engine : Engine := fun s =>
  if s = selectAllSql c1table then .ok ⟨[[("z", .num 0)]]⟩ else .ok ⟨[]⟩

/-- Fixture engine for the catalog-reader claim: the catalog holds one user
table named `extra`; its reflection queries all return no rows. -/
def c2engine : Engine := fun s =>
  if s = masterSql then
    .ok ⟨[[("name", .str "extra"), ("sql", .str "CREATE TABLE \"extra\" (\"x\" TEXT)")]]⟩
  else .ok ⟨[]⟩

/-- Fixture engine for the round-trip claim: table `t` with column `b` and
one named index `myidx` that the engine reports as unique — the `unique`
field carries the number `1`, the very value the `sqlite_autoindex` branch
at line 339 compares with `=== 1`. -/
def c4engine : Engine := fun s =>
  if s = masterSql then
    .ok ⟨[[("name", .str "t"), ("sql", .str "CREATE TABLE \"t\" (\"b\" TEXT)")]]⟩
  else if s = tableInfoSql "t" then
    .ok ⟨[[("name", .str "b"), ("type", .str "TEXT"), ("notnull", .num 0), ("pk", .num 0)]]⟩
  else if s = indexListSql "t" then
    .ok ⟨[[("name", .str "myidx"), ("unique", .num 1), ("origin", .str "c")]]⟩
  else if s = indexInfoSql "myidx" then .ok ⟨[[("name", .str "b")]]⟩
  else .ok ⟨[]⟩

/-- The descriptor the round-trip fixture produces. -/
def c4expected : TableSchema :=
  { name := "t"
    columns := [{ name := "b", type := "text", isNullable := true }]
    primaryKeys := []
    foreignKeys := []
    indices := [{ tableName := "t", name := "myidx", columnNames := ["b"], isUnique := false }] }

/-- Fixture for the failure-propagation claim. -/
def c8table : TableSchema := { name := "t", columns := [{ name := "a", type := "text" }] }

/-- Fixture engine that fails exactly on the `DROP TABLE` step. -/
def c8engine : Engine := fun s =>
  if s = dropTableSql c8table then .error "boom" else .ok ⟨[]⟩

/-- Decidable equality for `Except`, so that concrete runs can be settled
by `decide`. -/
instance {ε α : Type} [DecidableEq ε] [DecidableEq α] : DecidableEq (Except ε α) := fun a b =>
  match a, b with
  | .ok x, .ok y => if h : x = y then .isTrue (by rw [h]) else .isFalse (by simp [h])
  | .error x, .error y => if h : x = y then .isTrue (by rw [h]) else .isFalse (by simp [h])
  | .ok _, .error _ => .isFalse (by simp)
  | .error _, .ok _ => .isFalse (by simp)

/-! ## Helper lemmas on the string-search primitives -/

theorem lastCharIdx_append (c : Char) (l m : List Char) :
    lastCharIdx c (l ++ m) =
      match lastCharIdx c m with
      | some j => some (l.length + j)
      | none => lastCharIdx c l := by
  induction l with
  | nil => cases hm : lastCharIdx c m <;> simp [lastCharIdx, hm]
  | cons x xs ih =>
    simp only [List.cons_append, lastCharIdx, List.append_eq]
    rw [ih]
    cases hm : lastCharIdx c m with
    | some j =>
      simp only [Option.some.injEq, List.length_cons]
      omega
    | none => rfl

theorem lastCharIdx_eq_none (c : Char) (l : List Char) (h : c ∉ l) :
    lastCharIdx c l = none := by
  induction l with
  | nil => rfl
  | cons x xs ih =>
    simp only [List.mem_cons, not_or] at h
    have hx : ¬ x = c := fun hh => h.1 hh.symm
    simp [lastCharIdx, ih h.2, hx]

theorem firstCharIdx_append (c : Char) (l m : List Char) :
    firstCharIdx c (l ++ m) =
      match firstCharIdx c l with
      | some i => some i
      | none => (firstCharIdx c m).map (l.length + ·) := by
  induction l with
  | nil => cases hm : firstCharIdx c m <;> simp [firstCharIdx, hm]
  | cons x xs ih =>
    simp only [List.cons_append, firstCharIdx, List.append_eq]
    rw [ih]
    by_cases hx : x = c
    · simp [hx]
    · simp only [hx, if_false]
      cases hl : firstCharIdx c xs with
      | some i => rfl
      | none =>
        cases hm : firstCharIdx c m <;> simp [List.length_cons] <;> omega

theorem firstCharIdx_eq_none (c : Char) (l : List Char) (h : c ∉ l) :
    firstCharIdx c l = none := by
  induction l with
  | nil => rfl
  | cons x xs ih =>
    simp only [List.mem_cons, not_or] at h
    have hx : ¬ x = c := fun hh => h.1 hh.symm
    simp [firstCharIdx, ih h.2, hx]

theorem headChar_append_of_ne (s t : String) (h : s.data ≠ []) :
    headChar (s ++ t) = headChar s := by
  cases s with
  | mk data =>
    cases data with
    | nil => simp at h
    | cons c cs => rfl

theorem data_append_ne (s t : String) (h : s.data ≠ []) : (s ++ t).data ≠ [] := by
  rw [String.data_append]
  intro he
  exact h (List.append_eq_nil.mp he).1

theorem foldl_fkClauses (l : List ForeignKeySchema) (acc : String) :
    l.foldl (fun a fk => a ++ foreignKeyClause fk) acc = acc ++ concatForeignKeyClauses l := by
  induction l generalizing acc with
  | nil => simp [concatForeignKeyClauses, String.append_empty]
  | cons fk rest ih => simp [concatForeignKeyClauses, ih, String.append_assoc]

theorem createTableSql_eq (t : TableSchema) :
    createTableSql t =
      "CREATE TABLE IF NOT EXISTS \"" ++ t.name ++ "\" ("
        ++ joinComma (t.columns.map buildCreateColumnSql) ++ primaryKeyClause t ++ ")" := by
  unfold createTableSql primaryKeyClause
  by_cases hc : (t.columns.filter (fun c => c.isPrimary && !c.isGenerated)).length > 0
  · simp [hc, String.append_assoc]
  · simp [hc, String.append_assoc, String.append_empty]

theorem recreateCreateSql_eq (t : TableSchema) :
    recreateCreateSql t =
      "CREATE TABLE \"temporary_" ++ t.name ++ "\" ("
        ++ joinComma (t.columns.map buildCreateColumnSql)
        ++ concatForeignKeyClauses t.foreignKeys ++ primaryKeyClause t ++ ")" := by
  unfold recreateCreateSql primaryKeyClause
  by_cases hc : (t.columns.filter (fun c => c.isPrimary && !c.isGenerated)).length > 0
  · simp [hc, foldl_fkClauses, String.append_assoc]
  · simp [hc, foldl_fkClauses, String.append_assoc, String.append_empty]

theorem primaryKeyClause_ne_iff (t : TableSchema) :
    primaryKeyClause t ≠ "" ↔ ∃ c ∈ t.columns, c.isPrimary = true ∧ c.isGenerated = false := by
  unfold primaryKeyClause
  by_cases hc : (t.columns.filter (fun c => c.isPrimary && !c.isGenerated)).length > 0
  · simp only [hc, if_true]
    constructor
    · intro _
      have hne : t.columns.filter (fun c => c.isPrimary && !c.isGenerated) ≠ [] := by
        intro he
        rw [he] at hc
        simp at hc
      rcases List.exists_mem_of_ne_nil _ hne with ⟨c, hcmem⟩
      rcases List.mem_filter.mp hcmem with ⟨hmem, hp⟩
      simp only [Bool.and_eq_true, Bool.not_eq_true'] at hp
      exact ⟨c, hmem, hp.1, hp.2⟩
    · intro _ he
      have : ((", PRIMARY KEY(" : String)
          ++ joinComma ((t.columns.filter (fun c => c.isPrimary && !c.isGenerated)).map (fun c => c.name))
          ++ ")").data = ("" : String).data := congrArg String.data he
      rw [String.data_append, String.data_append] at this
      have h1 := (List.append_eq_nil.mp this).1
      have h2 := (List.append_eq_nil.mp h1).1
      revert h2
      decide
  · simp only [hc, if_false]
    constructor
    · intro h
      exact absurd rfl h
    · rintro ⟨c, hmem, hp, hg⟩ _
      have : t.columns.filter (fun c => c.isPrimary && !c.isGenerated) = [] := by
        rcases Nat.eq_zero_or_pos (t.columns.filter (fun c => c.isPrimary && !c.isGenerated)).length with h0 | hpos
        · exact List.eq_nil_of_length_eq_zero h0
        · exact absurd hpos hc
      have := List.filter_eq_nil_iff.mp this c hmem
      simp [hp, hg] at this

theorem headChar_dataCopySql (t : TableSchema) (r : Row) : headChar (dataCopySql t r) = some 'I' := rfl
theorem headChar_selectAllSql (t : TableSchema) : headChar (selectAllSql t) = some 'S' := rfl
theorem headChar_dropTableSql (t : TableSchema) : headChar (dropTableSql t) = some 'D' := rfl
theorem headChar_renameTempSql (t : TableSchema) : headChar (renameTempSql t) = some 'A' := rfl
theorem headChar_createIndexSql (i : IndexSchema) : headChar (createIndexSql i) = some 'C' := rfl
theorem headChar_recreateCreateSql (t : TableSchema) : headChar (recreateCreateSql t) = some 'C' := by
  rw [recreateCreateSql_eq]; rfl
theorem ne_of_headChar {a b : String} (h : headChar a ≠ headChar b) : a ≠ b :=
  fun he => h (he ▸ rfl)

/-- C5: rendering a single column definition is a pure function of the
column descriptor and produces, in order, the quoted column name, the type,
`NOT NULL` unless the column is nullable, `UNIQUE` if the uniqueness flag
is set, and `PRIMARY KEY` with the auto-increment syntax if the generated
flag is set; the generated clause is checked independently of the
primary-key membership flag, which has no effect on the rendering. -/
theorem buildCreateColumnSql_clauses (column : ColumnSchema) (b : Bool) :
    buildCreateColumnSql column =
      quoteId column.name ++ " " ++ column.type
        ++ (if column.isNullable then "" else " NOT NULL")
        ++ (if column.isUnique then " UNIQUE" else "")
        ++ (if column.isGenerated then " PRIMARY KEY AUTOINCREMENT" else "")
    ∧ buildCreateColumnSql { column with isPrimary := b } = buildCreateColumnSql column := by
  constructor
  · unfold buildCreateColumnSql quoteId
    cases hn : column.isNullable <;> cases hu : column.isUnique <;> cases hg : column.isGenerated <;>
      simp [hn, hu, hg, String.append_empty, String.append_assoc]
  · simp [buildCreateColumnSql]

/-- C6: both rendered `CREATE TABLE` statements consist of the column
fragments followed by the composite `PRIMARY KEY(col, ...)` clause, which
is present exactly when some column has the primary flag set and the
generated flag clear and lists those columns unquoted in declared order;
the recreation staging statement additionally carries one
`FOREIGN KEY(...) REFERENCES ...` clause per foreign-key descriptor,
between the column fragments and the primary-key clause. -/
theorem createTable_primaryKey_foreignKey_clauses (t : TableSchema) :
    createTableSql t =
      "CREATE TABLE IF NOT EXISTS \"" ++ t.name ++ "\" ("
        ++ joinComma (t.columns.map buildCreateColumnSql) ++ primaryKeyClause t ++ ")"
    ∧ recreateCreateSql t =
      "CREATE TABLE \"temporary_" ++ t.name ++ "\" ("
        ++ joinComma (t.columns.map buildCreateColumnSql)
        ++ concatForeignKeyClauses t.foreignKeys ++ primaryKeyClause t ++ ")"
    ∧ (primaryKeyClause t ≠ "" ↔ ∃ c ∈ t.columns, c.isPrimary = true ∧ c.isGenerated = false) :=
  ⟨createTableSql_eq t, recreateCreateSql_eq t, primaryKeyClause_ne_iff t⟩

/-- C9: dropColumns, createForeignKeys and dropForeignKeys leave the
caller-held table schema unchanged; on a live runner they invoke the
recreation sequence on a clone of the argument with the requested
structural edit applied. -/
theorem structural_edits_do_not_mutate_argument (engine : Engine) (st : RunnerState)
    (t : TableSchema) (cols : List ColumnSchema) (fks1 fks2 : List ForeignKeySchema) :
    ((dropColumnsOp engine st t cols).2 = t
      ∧ (createForeignKeysOp engine st t fks1).2 = t
      ∧ (dropForeignKeysOp engine st t fks2).2 = t)
    ∧ (st.isReleased = false →
        (dropColumnsOp engine st t cols).1
            = wrapEngine (recreateRun engine ((TableSchema.clone t).removeColumns cols))
        ∧ (createForeignKeysOp engine st t fks1).1
            = wrapEngine (recreateRun engine ((TableSchema.clone t).addForeignKeys fks1))
        ∧ (dropForeignKeysOp engine st t fks2).1
            = wrapEngine (recreateRun engine ((TableSchema.clone t).removeForeignKeys fks2))) := by
  constructor
  · refine ⟨?_, ?_, ?_⟩
    · unfold dropColumnsOp; split <;> rfl
    · unfold createForeignKeysOp; split <;> rfl
    · unfold dropForeignKeysOp; split <;> rfl
  · intro h
    refine ⟨?_, ?_, ?_⟩ <;> simp [dropColumnsOp, createForeignKeysOp, dropForeignKeysOp, h]

/-- Witness for C9 at a concrete live state, schema and engine. -/
theorem structural_edits_do_not_mutate_argument_witness :
    ((dropColumnsOp okEngine st0 c1table []).2 = c1table
      ∧ (createForeignKeysOp okEngine st0 c1table []).2 = c1table
      ∧ (dropForeignKeysOp okEngine st0 c1table []).2 = c1table)
    ∧ (dropColumnsOp okEngine st0 c1table []).1
        = wrapEngine (recreateRun okEngine ((TableSchema.clone c1table).removeColumns []))
    ∧ (createForeignKeysOp okEngine st0 c1table []).1
        = wrapEngine (recreateRun okEngine ((TableSchema.clone c1table).addForeignKeys []))
    ∧ (dropForeignKeysOp okEngine st0 c1table []).1
        = wrapEngine (recreateRun okEngine ((TableSchema.clone c1table).removeForeignKeys [])) :=
  ⟨(structural_edits_do_not_mutate_argument okEngine st0 c1table [] [] []).1,
   (structural_edits_do_not_mutate_argument okEngine st0 c1table [] [] []).2 rfl⟩

/-- C10: the second argument of createColumns and of changeColumns has no
effect: any two values of it produce the same result and statement
sequence, and on a live runner that sequence is exactly the recreation of
the table schema as passed in. -/
theorem createColumns_changeColumns_ignore_second_argument (engine : Engine) (st : RunnerState)
    (t : TableSchema) (cols1 cols2 : List ColumnSchema)
    (pairs1 pairs2 : List (ColumnSchema × ColumnSchema)) :
    createColumnsOp engine st t cols1 = createColumnsOp engine st t cols2
    ∧ changeColumnsOp engine st t pairs1 = changeColumnsOp engine st t pairs2
    ∧ (st.isReleased = false →
        createColumnsOp engine st t cols1 = wrapEngine (recreateRun engine t)
        ∧ changeColumnsOp engine st t pairs1 = wrapEngine (recreateRun engine t)) := by
  refine ⟨rfl, rfl, fun h => ⟨?_, ?_⟩⟩ <;> simp [createColumnsOp, changeColumnsOp, h]

/-- Witness for C10 at a concrete live state, schema and engine. -/
theorem createColumns_changeColumns_ignore_second_argument_witness :
    createColumnsOp okEngine st0 c1table [] = createColumnsOp okEngine st0 c1table [⟨"x", "text", none, false, false, false, false, ""⟩]
    ∧ createColumnsOp okEngine st0 c1table [] = wrapEngine (recreateRun okEngine c1table)
    ∧ changeColumnsOp okEngine st0 c1table [] = wrapEngine (recreateRun okEngine c1table) :=
  ⟨(createColumns_changeColumns_ignore_second_argument okEngine st0 c1table []
      [⟨"x", "text", none, false, false, false, false, ""⟩] [] []).1,
   (createColumns_changeColumns_ignore_second_argument okEngine st0 c1table []
      [⟨"x", "text", none, false, false, false, false, ""⟩] [] []).2.2 rfl⟩

/-- C7 counterexample: on a released runner (released via a connection that
has a release callback, with an active transaction) the isTransactionActive
operation does not fail with the already-released error — it returns the
transaction flag, contradicting the claim that every subsequent operation
fails with that error. -/
theorem isTransactionActive_after_release_no_error :
    isTransactionActiveOp (releaseRun ⟨false, true, true⟩) = .ok true
    ∧ isTransactionActiveOp (releaseRun ⟨false, true, true⟩) ≠ .error .alreadyReleased := by
  constructor
  · rfl
  · decide

/-- C7 amended: after release() has resolved on a connection that has a
release callback, every subsequent operation of the runner except
isTransactionActive fails with the fatal already-released error and issues
no statement; isTransactionActive still returns the connection transaction
flag without checking the released state.  (With no release callback the
released flag is never set, so the guard does not fire either.) -/
theorem released_runner_rejects_operations (ns : NamingStrategy) (engine : Engine) (st : RunnerState)
    (stmt : String) (params : List JsValue) (tableName indexName : String)
    (keyValues valuesMap conditions : List (String × JsValue))
    (tableNames : List String) (table : TableSchema) (cols : List ColumnSchema)
    (pairs : List (ColumnSchema × ColumnSchema)) (fks : List ForeignKeySchema)
    (index : IndexSchema)
    (h : st.hasReleaseCallback = true) :
    queryOp engine (releaseRun st) stmt params = (.error .alreadyReleased, [], [])
    ∧ insertOp engine (releaseRun st) tableName keyValues = (.error .alreadyReleased, [])
    ∧ updateOp engine (releaseRun st) tableName valuesMap conditions = (.error .alreadyReleased, [])
    ∧ deleteOp engine (releaseRun st) tableName conditions = (.error .alreadyReleased, [])
    ∧ clearDatabaseOp engine (releaseRun st) = (.error .alreadyReleased, [])
    ∧ loadSchemaTablesOp ns engine (releaseRun st) tableNames = (.error .alreadyReleased, [])
    ∧ createTableOp engine (releaseRun st) table = (.error .alreadyReleased, [])
    ∧ createColumnsOp engine (releaseRun st) table cols = (.error .alreadyReleased, [])
    ∧ changeColumnsOp engine (releaseRun st) table pairs = (.error .alreadyReleased, [])
    ∧ (dropColumnsOp engine (releaseRun st) table cols).1 = (.error .alreadyReleased, [])
    ∧ updatePrimaryKeysOp engine (releaseRun st) table = (.error .alreadyReleased, [])
    ∧ (createForeignKeysOp engine (releaseRun st) table fks).1 = (.error .alreadyReleased, [])
    ∧ (dropForeignKeysOp engine (releaseRun st) table fks).1 = (.error .alreadyReleased, [])
    ∧ createIndexOp engine (releaseRun st) index = (.error .alreadyReleased, [])
    ∧ dropIndexOp engine (releaseRun st) tableName indexName = (.error .alreadyReleased, [])
    ∧ beginTransactionOp engine (releaseRun st) = (.error .alreadyReleased, [], releaseRun st)
    ∧ commitTransactionOp engine (releaseRun st) = (.error .alreadyReleased, [], releaseRun st)
    ∧ rollbackTransactionOp engine (releaseRun st) = (.error .alreadyReleased, [], releaseRun st)
    ∧ isTransactionActiveOp (releaseRun st) = .ok st.isTransactionActive := by
  have hrel : (releaseRun st).isReleased = true := by simp [releaseRun, h]
  refine ⟨?_, ?_, ?_, ?_, ?_, ?_, ?_, ?_, ?_, ?_, ?_, ?_, ?_, ?_, ?_, ?_, ?_, ?_, ?_⟩ <;>
    simp [queryOp, insertOp, updateOp, deleteOp, clearDatabaseOp, loadSchemaTablesOp,
      createTableOp, createColumnsOp, changeColumnsOp, dropColumnsOp, updatePrimaryKeysOp,
      createForeignKeysOp, dropForeignKeysOp, createIndexOp, dropIndexOp,
      beginTransactionOp, commitTransactionOp, rollbackTransactionOp,
      isTransactionActiveOp, hrel, releaseRun, h]

/-- Witness for C7 at a concrete released state. -/
theorem released_runner_rejects_operations_witness :
    queryOp okEngine (releaseRun st0) "SELECT 1" [] = (.error .alreadyReleased, [], [])
    ∧ insertOp okEngine (releaseRun st0) "t" [] = (.error .alreadyReleased, []) :=
  ⟨(released_runner_rejects_operations ns0 okEngine st0 "SELECT 1" [] "t" "i" [] [] [] []
      c1table [] [] [] ⟨"t", "i", [], false⟩ rfl).1,
   (released_runner_rejects_operations ns0 okEngine st0 "SELECT 1" [] "t" "i" [] [] [] []
      c1table [] [] [] ⟨"t", "i", [], false⟩ rfl).2.1⟩

/-- C8: an engine-level statement failure in `query` is logged (statement,
parameters, error) and rejected to the caller with the native error
unmodified after exactly one issuance of the statement; and when the table
recreation sequence fails, the issued statements are exactly the successful
prefix ending at the failing statement (no later step is issued and no
compensating statement is ever added), except that a failure in the final
index-rebuild step occurs after all index statements were issued together
and propagates the first failing index statement error. -/
theorem failure_logged_and_propagated (engine : Engine) (t : TableSchema) :
    (∀ (st : RunnerState) (stmt : String) (params : List JsValue) (e : String),
        st.isReleased = false → engine stmt = .error e →
        queryOp engine st stmt params =
          (.error (.engine e), [stmt],
           [.loggedQuery stmt params, .failedQuery stmt params, .queryError e]))
    ∧ (∀ e, (recreateRun engine t).1 = .error e →
        (∃ pre s, (recreateRun engine t).2 = pre ++ [s]
            ∧ engine s = .error e
            ∧ ∀ s2 ∈ pre, ∃ r, engine s2 = .ok r)
        ∨ (∃ pre, (recreateRun engine t).2 = pre ++ t.indices.map createIndexSql
            ∧ (∀ s2 ∈ pre, ∃ r, engine s2 = .ok r)
            ∧ firstEngineError engine (t.indices.map createIndexSql) = some e)) := by
  constructor
  · intro st stmt params e hl he
    simp [queryOp, hl, he]
  · intro e h
    rcases h1 : engine (recreateCreateSql t) with e1 | r1
    · have hrun : recreateRun engine t = (.error e1, [recreateCreateSql t]) := by
        unfold recreateRun; simp [h1]
      rw [hrun] at h ⊢
      simp only [Except.error.injEq] at h
      subst h
      exact Or.inl ⟨[], recreateCreateSql t, rfl, h1, by simp⟩
    · rcases h2 : engine (selectAllSql t) with e2 | res
      · have hrun : recreateRun engine t = (.error e2, [recreateCreateSql t, selectAllSql t]) := by
          unfold recreateRun; simp [h1, h2]
        rw [hrun] at h ⊢
        simp only [Except.error.injEq] at h
        subst h
        refine Or.inl ⟨[recreateCreateSql t], selectAllSql t, rfl, h2, ?_⟩
        intro s2 hs2
        simp only [List.mem_singleton] at hs2
        exact hs2 ▸ ⟨r1, h1⟩
      · rcases hrows : res.rows with _ | ⟨row0, rest⟩
        · rcases h3 : engine (dropTableSql t) with e3 | r3
          · have hrun : recreateRun engine t =
                (.error e3, [recreateCreateSql t, selectAllSql t, dropTableSql t]) := by
              unfold recreateRun; simp [h1, h2, hrows, h3]
            rw [hrun] at h ⊢
            simp only [Except.error.injEq] at h
            subst h
            refine Or.inl ⟨[recreateCreateSql t, selectAllSql t], dropTableSql t, rfl, h3, ?_⟩
            intro s2 hs2
            simp only [List.mem_cons, List.not_mem_nil, or_false] at hs2
            rcases hs2 with rfl | rfl
            · exact ⟨r1, h1⟩
            · exact ⟨res, h2⟩
          · rcases h4 : engine (renameTempSql t) with e4 | r4
            · have hrun : recreateRun engine t =
                  (.error e4, [recreateCreateSql t, selectAllSql t, dropTableSql t, renameTempSql t]) := by
                unfold recreateRun; simp [h1, h2, hrows, h3, h4]
              rw [hrun] at h ⊢
              simp only [Except.error.injEq] at h
              subst h
              refine Or.inl ⟨[recreateCreateSql t, selectAllSql t, dropTableSql t],
                renameTempSql t, rfl, h4, ?_⟩
              intro s2 hs2
              simp only [List.mem_cons, List.not_mem_nil, or_false] at hs2
              rcases hs2 with rfl | rfl | rfl
              · exact ⟨r1, h1⟩
              · exact ⟨res, h2⟩
              · exact ⟨r3, h3⟩
            · rcases h5 : firstEngineError engine (t.indices.map createIndexSql) with _ | e5
              · have hrun : recreateRun engine t =
                    (.ok (), [recreateCreateSql t, selectAllSql t, dropTableSql t, renameTempSql t]
                      ++ t.indices.map createIndexSql) := by
                  unfold recreateRun recreateIndexStage; simp [h1, h2, hrows, h3, h4, h5]
                rw [hrun] at h
                simp at h
              · have hrun : recreateRun engine t =
                    (.error e5, [recreateCreateSql t, selectAllSql t, dropTableSql t, renameTempSql t]
                      ++ t.indices.map createIndexSql) := by
                  unfold recreateRun recreateIndexStage; simp [h1, h2, hrows, h3, h4, h5]
                rw [hrun] at h ⊢
                simp only [Except.error.injEq] at h
                subst h
                refine Or.inr ⟨[recreateCreateSql t, selectAllSql t, dropTableSql t, renameTempSql t],
                  rfl, ?_, rfl⟩
                intro s2 hs2
                simp only [List.mem_cons, List.not_mem_nil, or_false] at hs2
                rcases hs2 with rfl | rfl | rfl | rfl
                · exact ⟨r1, h1⟩
                · exact ⟨res, h2⟩
                · exact ⟨r3, h3⟩
                · exact ⟨r4, h4⟩
        · rcases h2b : engine (dataCopySql t row0) with e2b | r2b
          · have hrun : recreateRun engine t =
                (.error e2b, [recreateCreateSql t, selectAllSql t, dataCopySql t row0]) := by
              unfold recreateRun; simp [h1, h2, hrows, h2b]
            rw [hrun] at h ⊢
            simp only [Except.error.injEq] at h
            subst h
            refine Or.inl ⟨[recreateCreateSql t, selectAllSql t], dataCopySql t row0, rfl, h2b, ?_⟩
            intro s2 hs2
            simp only [List.mem_cons, List.not_mem_nil, or_false] at hs2
            rcases hs2 with rfl | rfl
            · exact ⟨r1, h1⟩
            · exact ⟨res, h2⟩
          · rcases h3 : engine (dropTableSql t) with e3 | r3
            · have hrun : recreateRun engine t =
                  (.error e3, [recreateCreateSql t, selectAllSql t, dataCopySql t row0, dropTableSql t]) := by
                unfold recreateRun; simp [h1, h2, hrows, h2b, h3]
              rw [hrun] at h ⊢
              simp only [Except.error.injEq] at h
              subst h
              refine Or.inl ⟨[recreateCreateSql t, selectAllSql t, dataCopySql t row0],
                dropTableSql t, rfl, h3, ?_⟩
              intro s2 hs2
              simp only [List.mem_cons, List.not_mem_nil, or_false] at hs2
              rcases hs2 with rfl | rfl | rfl
              · exact ⟨r1, h1⟩
              · exact ⟨res, h2⟩
              · exact ⟨r2b, h2b⟩
            · rcases h4 : engine (renameTempSql t) with e4 | r4
              · have hrun : recreateRun engine t =
                    (.error e4, [recreateCreateSql t, selectAllSql t, dataCopySql t row0,
                      dropTableSql t, renameTempSql t]) := by
                  unfold recreateRun; simp [h1, h2, hrows, h2b, h3, h4]
                rw [hrun] at h ⊢
                simp only [Except.error.injEq] at h
                subst h
                refine Or.inl ⟨[recreateCreateSql t, selectAllSql t, dataCopySql t row0, dropTableSql t],
                  renameTempSql t, rfl, h4, ?_⟩
                intro s2 hs2
                simp only [List.mem_cons, List.not_mem_nil, or_false] at hs2
                rcases hs2 with rfl | rfl | rfl | rfl
                · exact ⟨r1, h1⟩
                · exact ⟨res, h2⟩
                · exact ⟨r2b, h2b⟩
                · exact ⟨r3, h3⟩
              · rcases h5 : firstEngineError engine (t.indices.map createIndexSql) with _ | e5
                · have hrun : recreateRun engine t =
                      (.ok (), [recreateCreateSql t, selectAllSql t, dataCopySql t row0,
                        dropTableSql t, renameTempSql t] ++ t.indices.map createIndexSql) := by
                    unfold recreateRun recreateIndexStage; simp [h1, h2, hrows, h2b, h3, h4, h5]
                  rw [hrun] at h
                  simp at h
                · have hrun : recreateRun engine t =
                      (.error e5, [recreateCreateSql t, selectAllSql t, dataCopySql t row0,
                        dropTableSql t, renameTempSql t] ++ t.indices.map createIndexSql) := by
                    unfold recreateRun recreateIndexStage; simp [h1, h2, hrows, h2b, h3, h4, h5]
                  rw [hrun] at h ⊢
                  simp only [Except.error.injEq] at h
                  subst h
                  refine Or.inr ⟨[recreateCreateSql t, selectAllSql t, dataCopySql t row0,
                    dropTableSql t, renameTempSql t], rfl, ?_, rfl⟩
                  intro s2 hs2
                  simp only [List.mem_cons, List.not_mem_nil, or_false] at hs2
                  rcases hs2 with rfl | rfl | rfl | rfl | rfl
                  · exact ⟨r1, h1⟩
                  · exact ⟨res, h2⟩
                  · exact ⟨r2b, h2b⟩
                  · exact ⟨r3, h3⟩
                  · exact ⟨r4, h4⟩

/-- Witness for C8: an engine failing on the `DROP TABLE` step. -/
theorem failure_logged_and_propagated_witness :
    (queryOp c8engine st0 (dropTableSql c8table) [] =
      (.error (.engine "boom"), [dropTableSql c8table],
       [.loggedQuery (dropTableSql c8table) [], .failedQuery (dropTableSql c8table) [],
        .queryError "boom"]))
    ∧ ((∃ pre s, (recreateRun c8engine c8table).2 = pre ++ [s]
          ∧ c8engine s = .error "boom"
          ∧ ∀ s2 ∈ pre, ∃ r, c8engine s2 = .ok r)
       ∨ (∃ pre, (recreateRun c8engine c8table).2 = pre ++ c8table.indices.map createIndexSql
          ∧ (∀ s2 ∈ pre, ∃ r, c8engine s2 = .ok r)
          ∧ firstEngineError c8engine (c8table.indices.map createIndexSql) = some "boom")) :=
  ⟨(failure_logged_and_propagated c8engine c8table).1 st0 (dropTableSql c8table) [] "boom" rfl
      (by decide),
   (failure_logged_and_propagated c8engine c8table).2 "boom" (by decide)⟩

theorem dataCopy_ne_recreateCreate (t t2 : TableSchema) (r : Row) :
    dataCopySql t r ≠ recreateCreateSql t2 :=
  ne_of_headChar (by rw [headChar_dataCopySql, headChar_recreateCreateSql]; decide)

theorem dataCopy_ne_selectAll (t t2 : TableSchema) (r : Row) :
    dataCopySql t r ≠ selectAllSql t2 :=
  ne_of_headChar (by rw [headChar_dataCopySql, headChar_selectAllSql]; decide)

theorem dataCopy_ne_dropTable (t t2 : TableSchema) (r : Row) :
    dataCopySql t r ≠ dropTableSql t2 :=
  ne_of_headChar (by rw [headChar_dataCopySql, headChar_dropTableSql]; decide)

theorem dataCopy_ne_renameTemp (t t2 : TableSchema) (r : Row) :
    dataCopySql t r ≠ renameTempSql t2 :=
  ne_of_headChar (by rw [headChar_dataCopySql, headChar_renameTempSql]; decide)

theorem dataCopy_ne_createIndex (t : TableSchema) (r : Row) (i : IndexSchema) :
    dataCopySql t r ≠ createIndexSql i :=
  ne_of_headChar (by rw [headChar_dataCopySql, headChar_createIndexSql]; decide)

theorem dataCopy_notin_of_map_createIndex (t : TableSchema) (r : Row) (l : List IndexSchema) :
    dataCopySql t r ∉ l.map createIndexSql := by
  intro hm
  rcases List.mem_map.mp hm with ⟨i, _, hi⟩
  exact dataCopy_ne_createIndex t r i hi.symm

/-- C1 counterexample: for a target table with single column `a` whose
existing data row has only the property `z`, the by-name intersection is
empty, yet the data-copy INSERT statement (with empty column lists) is
still issued — refuting the only-if direction of the claim. -/
theorem recreate_insert_with_empty_intersection :
    ([("z", JsValue.num 0)].map Prod.fst).filter
        (fun x => (c1table.columns.map (fun c => c.name)).contains x) = []
    ∧ c1engine (selectAllSql c1table) = .ok ⟨[[("z", JsValue.num 0)]]⟩
    ∧ dataCopySql c1table [("z", JsValue.num 0)] ∈ (recreateRun c1engine c1table).2 := by
  refine ⟨rfl, rfl, ?_⟩
  decide

/-- C1 amended: during table recreation (with the staging and probe steps
succeeding), the data-copy INSERT statement is issued if and only if the
probe SELECT returns at least one row — even when the by-name intersection
of the first row with the target columns is empty, in which case the INSERT
carries empty column lists; when issued it uses exactly that intersection,
in the order the columns appear in the old row, on both the insert-column
and the select sides, and for a table with zero rows no INSERT is ever
issued. -/
theorem recreate_dataCopy_iff_rows (engine : Engine) (t : TableSchema) (r1 res : QueryOk)
    (h1 : engine (recreateCreateSql t) = .ok r1)
    (h2 : engine (selectAllSql t) = .ok res) :
    (res.rows = [] → ∀ row : Row, dataCopySql t row ∉ (recreateRun engine t).2)
    ∧ (∀ row0 rest, res.rows = row0 :: rest →
        dataCopySql t row0 ∈ (recreateRun engine t).2
        ∧ dataCopySql t row0 =
          "INSERT INTO \"temporary_" ++ t.name ++ "\" ("
            ++ joinComma ((row0.map Prod.fst).filter
                 (fun x => (t.columns.map (fun c => c.name)).contains x))
            ++ ") SELECT "
            ++ joinComma (((row0.map Prod.fst).filter
                 (fun x => (t.columns.map (fun c => c.name)).contains x)).map quoteId)
            ++ " FROM \"" ++ t.name ++ "\"") := by
  constructor
  · intro hrows row
    rcases h3 : engine (dropTableSql t) with e3 | r3
    · have hrun : recreateRun engine t =
          (.error e3, [recreateCreateSql t, selectAllSql t, dropTableSql t]) := by
        unfold recreateRun; simp [h1, h2, hrows, h3]
      rw [hrun]
      intro hm
      simp only [List.mem_cons, List.not_mem_nil, or_false] at hm
      rcases hm with hm | hm | hm
      · exact dataCopy_ne_recreateCreate t t row hm
      · exact dataCopy_ne_selectAll t t row hm
      · exact dataCopy_ne_dropTable t t row hm
    · rcases h4 : engine (renameTempSql t) with e4 | r4
      · have hrun : recreateRun engine t =
            (.error e4, [recreateCreateSql t, selectAllSql t, dropTableSql t, renameTempSql t]) := by
          unfold recreateRun; simp [h1, h2, hrows, h3, h4]
        rw [hrun]
        intro hm
        simp only [List.mem_cons, List.not_mem_nil, or_false] at hm
        rcases hm with hm | hm | hm | hm
        · exact dataCopy_ne_recreateCreate t t row hm
        · exact dataCopy_ne_selectAll t t row hm
        · exact dataCopy_ne_dropTable t t row hm
        · exact dataCopy_ne_renameTemp t t row hm
      · have hrun : (recreateRun engine t).2 =
            [recreateCreateSql t, selectAllSql t, dropTableSql t, renameTempSql t]
              ++ t.indices.map createIndexSql := by
          unfold recreateRun recreateIndexStage; simp [h1, h2, hrows, h3, h4]
        rw [hrun]
        intro hm
        rcases List.mem_append.mp hm with hm | hm
        · simp only [List.mem_cons, List.not_mem_nil, or_false] at hm
          rcases hm with hm | hm | hm | hm
          · exact dataCopy_ne_recreateCreate t t row hm
          · exact dataCopy_ne_selectAll t t row hm
          · exact dataCopy_ne_dropTable t t row hm
          · exact dataCopy_ne_renameTemp t t row hm
        · exact dataCopy_notin_of_map_createIndex t row t.indices hm
  · intro row0 rest hrows
    refine ⟨?_, rfl⟩
    rcases h2b : engine (dataCopySql t row0) with e2b | r2b
    · have hrun : (recreateRun engine t).2 =
          [recreateCreateSql t, selectAllSql t, dataCopySql t row0] := by
        unfold recreateRun; simp [h1, h2, hrows, h2b]
      rw [hrun]; simp
    · rcases h3 : engine (dropTableSql t) with e3 | r3
      · have hrun : (recreateRun engine t).2 =
            [recreateCreateSql t, selectAllSql t, dataCopySql t row0, dropTableSql t] := by
          unfold recreateRun; simp [h1, h2, hrows, h2b, h3]
        rw [hrun]; simp
      · rcases h4 : engine (renameTempSql t) with e4 | r4
        · have hrun : (recreateRun engine t).2 =
              [recreateCreateSql t, selectAllSql t, dataCopySql t row0, dropTableSql t,
                renameTempSql t] := by
            unfold recreateRun; simp [h1, h2, hrows, h2b, h3, h4]
          rw [hrun]; simp
        · have hrun : (recreateRun engine t).2 =
              [recreateCreateSql t, selectAllSql t, dataCopySql t row0, dropTableSql t,
                renameTempSql t] ++ t.indices.map createIndexSql := by
            unfold recreateRun recreateIndexStage; simp [h1, h2, hrows, h2b, h3, h4]
          rw [hrun]; simp

/-- Witness for C1 at a zero-row table and at a one-row table. -/
theorem recreate_dataCopy_iff_rows_witness :
    dataCopySql c8table [("z", JsValue.num 0)] ∉ (recreateRun okEngine c8table).2
    ∧ dataCopySql c1table [("z", JsValue.num 0)] ∈ (recreateRun c1engine c1table).2 :=
  ⟨(recreate_dataCopy_iff_rows okEngine c8table ⟨[]⟩ ⟨[]⟩ rfl rfl).1 rfl [("z", JsValue.num 0)],
   ((recreate_dataCopy_iff_rows c1engine c1table ⟨[]⟩ ⟨[[("z", JsValue.num 0)]]⟩ rfl rfl).2
      [("z", JsValue.num 0)] [] rfl).1⟩

theorem buildTableSchema_name (ns : NamingStrategy) (engine : Engine) (dbTable : Row)
    (ts : TableSchema) (iss : List String)
    (h : buildTableSchema ns engine dbTable = (.ok ts, iss)) :
    ts.name = (dbTable.get "name").asString := by
  simp only [buildTableSchema] at h
  split at h
  · simp at h
  · simp at h
  · simp at h
  · split at h
    · simp at h
    · split at h
      · simp at h
      · simp only [Prod.mk.injEq, Except.ok.injEq] at h
        rw [← h.1]

theorem buildTables_names (ns : NamingStrategy) (engine : Engine) (rows : List Row)
    (tss : List TableSchema) (iss : List String)
    (h : buildTables ns engine rows = (.ok tss, iss)) :
    tss.map (fun ts => ts.name) = rows.map (fun r => (r.get "name").asString) := by
  induction rows generalizing tss iss with
  | nil =>
    unfold buildTables at h
    simp only [Prod.mk.injEq, Except.ok.injEq] at h
    rw [← h.1]
    rfl
  | cons r rest ih =>
    unfold buildTables at h
    rcases hb : buildTableSchema ns engine r with ⟨rb, issb⟩
    rw [hb] at h
    cases rb with
    | error e => simp at h
    | ok ts =>
      rcases hr : buildTables ns engine rest with ⟨rr, iss2⟩
      rw [hr] at h
      cases rr with
      | error e => simp at h
      | ok more =>
        simp only [Prod.mk.injEq, Except.ok.injEq] at h
        rw [← h.1]
        simp only [List.map_cons]
        rw [buildTableSchema_name ns engine r ts issb hb, ih more iss2 hr]

/-- C2 counterexample: with one user table `extra` in the catalog and the
name list `[t]`, loadSchemaTables returns a descriptor for `extra`, a table
not in the given list — refuting the claim that no descriptor is produced
for a table outside the list. -/
theorem loadSchemaTables_returns_unlisted_table :
    (loadSchemaTablesRun ns0 c2engine ["t"]).1
      = .ok [{ name := "extra", columns := [], primaryKeys := [], foreignKeys := [],
               indices := [] }]
    ∧ ("extra" : String) ∉ ["t"] := by
  constructor
  · rfl
  · decide

/-- C2 amended: loadSchemaTables produces exactly one TableDescriptor per
catalog row (every user table of the database), irrespective of which
names were requested — the name list is consulted only for emptiness — and
for an empty or missing name list it returns an empty result without
issuing any catalog query. -/
theorem loadSchemaTables_catalog_driven (ns : NamingStrategy) (engine : Engine) :
    (∀ tableNames : List String, tableNames = [] →
        loadSchemaTablesRun ns engine tableNames = (.ok [], []))
    ∧ (∀ n1 n2 : List String, n1 ≠ [] → n2 ≠ [] →
        loadSchemaTablesRun ns engine n1 = loadSchemaTablesRun ns engine n2)
    ∧ (∀ (tableNames : List String) (master : QueryOk) (tss : List TableSchema)
          (iss : List String), tableNames ≠ [] →
        engine masterSql = .ok master →
        loadSchemaTablesRun ns engine tableNames = (.ok tss, iss) →
        tss.map (fun ts => ts.name) = master.rows.map (fun r => (r.get "name").asString)) := by
  refine ⟨?_, ?_, ?_⟩
  · intro tableNames h
    rw [h]
    rfl
  · intro n1 n2 h1 h2
    unfold loadSchemaTablesRun
    rw [List.isEmpty_eq_false.mpr h1, List.isEmpty_eq_false.mpr h2]
  · intro tableNames master tss iss hne hm h
    unfold loadSchemaTablesRun at h
    rw [List.isEmpty_eq_false.mpr hne, hm] at h
    simp only [Bool.false_eq_true, if_false] at h
    by_cases hrows : master.rows.isEmpty
    · rw [if_pos hrows] at h
      simp only [Prod.mk.injEq, Except.ok.injEq] at h
      rw [← h.1, List.isEmpty_iff.mp hrows]
      rfl
    · rw [if_neg hrows] at h
      rcases hb : buildTables ns engine master.rows with ⟨rb, issb⟩
      rw [hb] at h
      simp only [Prod.mk.injEq] at h
      rcases h with ⟨hres, hiss⟩
      cases rb with
      | error e => simp at hres
      | ok more =>
        simp only [Except.ok.injEq] at hres
        rw [← hres]
        exact buildTables_names ns engine master.rows more issb hb

/-- Witness for C2 at the concrete one-table catalog. -/
theorem loadSchemaTables_catalog_driven_witness :
    loadSchemaTablesRun ns0 c2engine [] = (.ok [], [])
    ∧ loadSchemaTablesRun ns0 c2engine ["t"] = loadSchemaTablesRun ns0 c2engine ["a", "b"]
    ∧ [({ name := "extra" } : TableSchema)].map (fun ts => ts.name)
        = ([[("name", JsValue.str "extra"),
             ("sql", JsValue.str "CREATE TABLE \"extra\" (\"x\" TEXT)")]] : List Row).map
            (fun r => (r.get "name").asString) :=
  ⟨(loadSchemaTables_catalog_driven ns0 c2engine).1 [] rfl,
   (loadSchemaTables_catalog_driven ns0 c2engine).2.1 ["t"] ["a", "b"] (by decide) (by decide),
   (loadSchemaTables_catalog_driven ns0 c2engine).2.2 ["t"]
     ⟨[[("name", JsValue.str "extra"), ("sql", JsValue.str "CREATE TABLE \"extra\" (\"x\" TEXT)")]]⟩
     [{ name := "extra" }]
     [masterSql, tableInfoSql "extra", indexListSql "extra", foreignKeyListSql "extra"]
     (by decide) rfl rfl⟩

theorem lastCharIdx_cons_self_of_notin (c : Char) (b : List Char) (h : c ∉ b) :
    lastCharIdx c (c :: b) = some 0 := by
  simp [lastCharIdx, lastCharIdx_eq_none c b h]

theorem take_prefix3 (p q r : List Char) : (p ++ q ++ r).take p.length = p := by
  rw [List.append_assoc]
  exact List.take_left p (q ++ r)

theorem extractQuotedName_spec (col b : List Char) (x : Char)
    (hqc : '"' ∉ col) (hqb : '"' ∉ b) (hx : x ≠ '"') :
    extractQuotedName (x :: '"' :: col ++ '"' :: b) = col := by
  have hlq : lastCharIdx '"' (x :: '"' :: col ++ '"' :: b) = some (col.length + 2) := by
    have hsplit : x :: '"' :: col ++ '"' :: b = (x :: '"' :: col) ++ ('"' :: b) := by simp
    rw [hsplit, lastCharIdx_append, lastCharIdx_cons_self_of_notin '"' b hqb]
    simp only [List.length_cons, Nat.add_zero, Option.some.injEq]
  have htake : (x :: '"' :: col ++ '"' :: b).take (col.length + 2) = x :: '"' :: col := by
    have hsplit : x :: '"' :: col ++ '"' :: b = (x :: '"' :: col) ++ ('"' :: b) := by simp
    have hlen : col.length + 2 = (x :: '"' :: col).length := by
      simp only [List.length_cons]
    rw [hsplit, hlen, List.take_left]
  have hfq : firstCharIdx '"' (x :: '"' :: col) = some 1 := by
    simp [firstCharIdx, hx]
  simp only [extractQuotedName, hlq, htake, hfq]
  rfl

theorem c3_comma_case (a col b tail p : List Char)
    (hp : p = a ++ ',' :: '"' :: col ++ '"' :: b)
    (hcb : ',' ∉ b) (hqb : '"' ∉ b) (hcc : ',' ∉ col) (hqc : '"' ∉ col)
    (hkw : firstOccurIdx autoincKeyword (p ++ autoincKeyword ++ tail) = some p.length) :
    autoIncNameL (p ++ autoincKeyword ++ tail) = some col := by
  subst hp
  have hnotin : ',' ∉ ('"' :: col ++ '"' :: b) := by
    intro hmem
    rcases List.mem_cons.mp hmem with h1 | h2
    · exact absurd h1 (by decide)
    · rcases List.mem_append.mp h2 with h3 | h4
      · exact hcc h3
      · rcases List.mem_cons.mp h4 with h5 | h6
        · exact absurd h5 (by decide)
        · exact hcb h6
  have hcomma : lastCharIdx ',' (a ++ ',' :: '"' :: col ++ '"' :: b) = some a.length := by
    have hsplit : a ++ ',' :: '"' :: col ++ '"' :: b
        = (a ++ [',']) ++ ('"' :: col ++ '"' :: b) := by simp
    rw [hsplit, lastCharIdx_append, lastCharIdx_eq_none ',' _ hnotin, lastCharIdx_append]
    simp [lastCharIdx]
  have hdrop : (a ++ ',' :: '"' :: col ++ '"' :: b).drop a.length
      = ',' :: '"' :: col ++ '"' :: b := by
    rw [List.append_assoc]
    exact List.drop_left a _
  have hex : extractQuotedName (',' :: '"' :: col ++ '"' :: b) = col :=
    extractQuotedName_spec col b ',' hqc hqb (by decide)
  simp only [autoIncNameL, hkw, take_prefix3, hcomma, hdrop, hex]

theorem c3_paren_case (a col b tail p : List Char)
    (hp : p = a ++ '(' :: '"' :: col ++ '"' :: b)
    (hca : ',' ∉ a) (hcc : ',' ∉ col) (hcb : ',' ∉ b)
    (hpc : '(' ∉ col) (hpb : '(' ∉ b) (hqc : '"' ∉ col) (hqb : '"' ∉ b)
    (hkw : firstOccurIdx autoincKeyword (p ++ autoincKeyword ++ tail) = some p.length) :
    autoIncNameL (p ++ autoincKeyword ++ tail) = some col := by
  subst hp
  have hnoc : ',' ∉ (a ++ '(' :: '"' :: col ++ '"' :: b) := by
    intro hmem
    rcases List.mem_append.mp hmem with h | h
    · rcases List.mem_append.mp h with h | h
      · exact hca h
      · rcases List.mem_cons.mp h with h | h
        · exact absurd h (by decide)
        · rcases List.mem_cons.mp h with h | h
          · exact absurd h (by decide)
          · exact hcc h
    · rcases List.mem_cons.mp h with h | h
      · exact absurd h (by decide)
      · exact hcb h
  have hcomma : lastCharIdx ',' (a ++ '(' :: '"' :: col ++ '"' :: b) = none :=
    lastCharIdx_eq_none ',' _ hnoc
  have hnotin : '(' ∉ ('"' :: col ++ '"' :: b) := by
    intro hmem
    rcases List.mem_cons.mp hmem with h | h
    · exact absurd h (by decide)
    · rcases List.mem_append.mp h with h | h
      · exact hpc h
      · rcases List.mem_cons.mp h with h | h
        · exact absurd h (by decide)
        · exact hpb h
  have hbr : lastCharIdx '(' (a ++ '(' :: '"' :: col ++ '"' :: b) = some a.length := by
    have hsplit : a ++ '(' :: '"' :: col ++ '"' :: b
        = (a ++ ['(']) ++ ('"' :: col ++ '"' :: b) := by simp
    rw [hsplit, lastCharIdx_append, lastCharIdx_eq_none '(' _ hnotin, lastCharIdx_append]
    simp [lastCharIdx]
  have hdrop : (a ++ '(' :: '"' :: col ++ '"' :: b).drop a.length
      = '(' :: '"' :: col ++ '"' :: b := by
    rw [List.append_assoc]
    exact List.drop_left a _
  have hex : extractQuotedName ('(' :: '"' :: col ++ '"' :: b) = col :=
    extractQuotedName_spec col b '(' hqc hqb (by decide)
  simp only [autoIncNameL, hkw, take_prefix3, hcomma, hbr, hdrop, hex]

/-- C3 counterexample: on the creation text `, "b" ("id" AUTOINCREMENT` the
nearest boundary to the keyword is the opening parenthesis and the nearest
quote pair delimits `id`, but the source gives the comma priority and keeps
everything between the first and last quote of the comma span, detecting
`b" ("id` instead — refuting the claimed boundary-and-nearest-pair rule. -/
theorem autoinc_detection_ne_nearest_rule :
    autoIncrementColumnName ", \"b\" (\"id\" AUTOINCREMENT" = some "b\" (\"id"
    ∧ claimedNearestRule (", \"b\" (\"id\" AUTOINCREMENT".toList) = some ("id".toList)
    ∧ autoIncNameL (", \"b\" (\"id\" AUTOINCREMENT".toList)
        ≠ claimedNearestRule (", \"b\" (\"id\" AUTOINCREMENT".toList) := by
  refine ⟨rfl, by decide, by decide⟩

/-- C3 amended: when the creation text contains the autoincrement keyword,
the span examined starts at the nearest preceding comma whenever any comma
precedes the keyword — regardless of whether an opening parenthesis is
closer — and otherwise at the nearest preceding opening parenthesis; the
detected name is the text strictly between the first and the last double
quote of that span.  When the span holds exactly one quoted identifier
this is the quoted name immediately before the keyword: in particular for
text `..., "col" ... AUTOINCREMENT...` the detected name is `col`, and for
a parenthesized prefix with no preceding comma the quoted name before the
keyword is still resolved. -/
theorem autoinc_detection_comma_priority :
    (∀ a col b tail p : List Char,
      p = a ++ ',' :: '"' :: col ++ '"' :: b →
      ',' ∉ b → '"' ∉ b → ',' ∉ col → '"' ∉ col →
      firstOccurIdx autoincKeyword (p ++ autoincKeyword ++ tail) = some p.length →
      autoIncNameL (p ++ autoincKeyword ++ tail) = some col)
    ∧ (∀ a col b tail p : List Char,
      p = a ++ '(' :: '"' :: col ++ '"' :: b →
      ',' ∉ a → ',' ∉ col → ',' ∉ b → '(' ∉ col → '(' ∉ b → '"' ∉ col → '"' ∉ b →
      firstOccurIdx autoincKeyword (p ++ autoincKeyword ++ tail) = some p.length →
      autoIncNameL (p ++ autoincKeyword ++ tail) = some col) :=
  ⟨c3_comma_case, c3_paren_case⟩

/-- Witness for C3 on the two patterns named by the claim. -/
theorem autoinc_detection_comma_priority_witness :
    autoIncNameL (("CREATE TABLE \"t\" (\"x\" int".toList
        ++ ',' :: '"' :: "col".toList ++ '"' :: " INTEGER PRIMARY KEY ".toList)
        ++ autoincKeyword ++ ")".toList) = some ("col".toList)
    ∧ autoIncNameL (("CREATE TABLE \"t\" ".toList
        ++ '(' :: '"' :: "id".toList ++ '"' :: " INTEGER PRIMARY KEY ".toList)
        ++ autoincKeyword ++ ")".toList) = some ("id".toList) :=
  ⟨autoinc_detection_comma_priority.1 ("CREATE TABLE \"t\" (\"x\" int".toList) ("col".toList)
      (" INTEGER PRIMARY KEY ".toList) (")".toList) _ rfl
      (by decide) (by decide) (by decide) (by decide) (by decide),
   autoinc_detection_comma_priority.2 ("CREATE TABLE \"t\" ".toList) ("id".toList)
      (" INTEGER PRIMARY KEY ".toList) (")".toList) _ rfl
      (by decide) (by decide) (by decide) (by decide) (by decide) (by decide) (by decide)
      (by decide)⟩

/-- C4: evaluating the catalog reader at the failing input — a table `t`
with a named index `myidx` that the engine reports with `unique = 1` (the
number, the same value the `sqlite_autoindex` branch of the same function
compares with `=== 1`) — produces an IndexSchema whose uniqueness flag is
clear, because line 351 compares the `unique` field against the string
`"1"`, and a number is never strictly equal to a string.  The claimed
round-trip for named unique indices therefore fails on the code. -/
theorem unique_index_flag_lost_roundtrip :
    (loadSchemaTablesRun ns0 c4engine ["t"]).1 = .ok [c4expected]
    ∧ c4expected.indices
        = [{ tableName := "t", name := "myidx", columnNames := ["b"], isUnique := false }]
    ∧ c4engine (indexListSql "t")
        = .ok ⟨[[("name", .str "myidx"), ("unique", .num 1), ("origin", .str "c")]]⟩
    ∧ (JsValue.num 1 == JsValue.num 1) = true
    ∧ (JsValue.num 1 == JsValue.str "1") = false :=
  ⟨by decide, rfl, rfl, rfl, rfl⟩
